import Mathlib

/-!
Verification development for the staged research pipeline of the
agent_researcher repository.

Shallow embedding conventions:
- Python dataclasses and TypedDicts become Lean structures.
- Numeric score fields (Python float) are modelled as Rat; no claim here
  depends on floating-point rounding.
- The generative-text oracle and the json library are external
  collaborators: each call site takes their outcome as a parameter
  (an OracleOutcome value, and a loads function for the JSON parse).
- Raising an exception is modelled by Except.error; functions that can
  never raise return plain values.
- Exact prompt wording is a spec non-goal and is not modelled; an oracle
  outcome stands for the result of generate_content on the prompt built
  at that call site.
-/

namespace AgentResearcher

/-! ### Structured payload records (research/services/gemini.py) -/

/-- A key decision maker at the company (dataclass DecisionMaker). -/
structure DecisionMaker where
  name : String := ""
  title : String := ""
  background : String := ""
  linkedin_url : String := ""
  deriving Repr, DecidableEq

/-- A recent news item about the company (dataclass NewsItem). -/
structure NewsItem where
  title : String := ""
  summary : String := ""
  date : String := ""
  source : String := ""
  url : String := ""
  deriving Repr, DecidableEq

/-- Structured data from deep research (dataclass ResearchReportData).
to_dict is asdict, so the same record also models the report dict held in
workflow state and the persisted ResearchReport row values. -/
structure ResearchReportData where
  company_overview : String := ""
  founded_year : Option Int := none
  headquarters : String := ""
  employee_count : String := ""
  annual_revenue : String := ""
  website : String := ""
  recent_news : List NewsItem := []
  decision_makers : List DecisionMaker := []
  pain_points : List String := []
  opportunities : List String := []
  digital_maturity : String := ""
  ai_footprint : String := ""
  ai_adoption_stage : String := ""
  strategic_goals : List String := []
  key_initiatives : List String := []
  talking_points : List String := []
  deriving Repr, DecidableEq

/-! ### Internal ops payloads (research/services/internal_ops.py) -/

/-- Employee sentiment data structure. -/
structure EmployeeSentiment where
  overall_rating : Rat := 0
  work_life_balance : Rat := 0
  compensation : Rat := 0
  culture : Rat := 0
  management : Rat := 0
  recommend_pct : Int := 0
  positive_themes : List String := []
  negative_themes : List String := []
  trend : String := "stable"
  deriving Repr, DecidableEq

/-- LinkedIn presence data structure; recent_posts holds raw small dicts. -/
structure LinkedInPresence where
  follower_count : Int := 0
  engagement_level : String := "medium"
  recent_posts : List (List (String × String)) := []
  employee_trend : String := "stable"
  notable_changes : List String := []
  deriving Repr, DecidableEq

/-- Social media mention data structure. -/
structure SocialMediaMention where
  platform : String := ""
  summary : String := ""
  sentiment : String := "neutral"
  topic : String := ""
  deriving Repr, DecidableEq

/-- Job postings analysis data structure; dict-valued fields are assoc lists. -/
structure JobPostings where
  total_openings : Int := 0
  departments_hiring : List (String × Int) := []
  skills_sought : List String := []
  seniority_distribution : List (String × Int) := []
  urgency_signals : List String := []
  insights : String := ""
  deriving Repr, DecidableEq

/-- News sentiment data structure; headlines holds raw small dicts. -/
structure NewsSentiment where
  overall_sentiment : String := "neutral"
  coverage_volume : String := "low"
  topics : List String := []
  headlines : List (List (String × String)) := []
  deriving Repr, DecidableEq

/-- Complete internal operations intelligence data (dataclass InternalOpsData).
to_dict maps each nested record through its own to_dict, so the same record
models the internal_ops dict held in workflow state. -/
structure InternalOpsData where
  employee_sentiment : EmployeeSentiment := {}
  linkedin_presence : LinkedInPresence := {}
  social_media_mentions : List SocialMediaMention := []
  job_postings : JobPostings := {}
  news_sentiment : NewsSentiment := {}
  key_insights : List String := []
  confidence_score : Rat := 0
  data_freshness : String := "unknown"
  analysis_notes : String := ""
  deriving Repr, DecidableEq

/-! ### Gap analysis and correlation payloads
(research/services/gap_analysis.py, gap_correlation.py) -/

/-- The gap analysis dict built by the analyze_gaps node (nodes.py lines
175 to 183) from the GapAnalysisData record; same keys as the persisted
GapAnalysis row values. -/
structure GapDict where
  technology_gaps : List String := []
  capability_gaps : List String := []
  process_gaps : List String := []
  recommendations : List String := []
  priority_areas : List String := []
  confidence_score : Rat := 0
  analysis_notes : String := ""
  deriving Repr, DecidableEq

/-- One gap correlation dict (dataclass GapCorrelation via to_dict). -/
structure CorrelationDict where
  gap_type : String := ""
  description : String := ""
  evidence : String := ""
  evidence_type : String := "supporting"
  confidence : Rat := 0
  sales_implication : String := ""
  deriving Repr, DecidableEq

/-- One competitor case study dict as stored in workflow state by the
search_competitors node (nodes.py lines 124 to 136). -/
structure CaseStudyDict where
  competitor_name : String := ""
  vertical : String := ""
  case_study_title : String := ""
  summary : String := ""
  technologies_used : List String := []
  outcomes : List String := []
  source_url : String := ""
  relevance_score : Rat := 0
  deriving Repr, DecidableEq

/-! ### Workflow state (research/graph/state.py) -/

/-- State object for the research workflow (TypedDict ResearchState).
The run_research_sync caller initialises every key, the payload keys to
None, so Option fields model key-present-with-None as none. -/
structure ResearchState where
  client_name : String
  sales_history : String
  prompt : String
  job_id : String
  status : String
  result : String
  error : String
  research_report : Option ResearchReportData
  vertical : Option String
  competitor_case_studies : Option (List CaseStudyDict)
  gap_analysis : Option GapDict
  internal_ops : Option InternalOpsData
  gap_correlations : Option (List CorrelationDict)
  deriving Repr, DecidableEq

/-! ### Oracle and json-library collaborators -/

/-- Outcome of one generate_content round trip: either the raw response
text, or a raised transport/quota exception with its message. -/
inductive OracleOutcome where
  | reply (text : String)
  | raise (msg : String)
  deriving Repr, DecidableEq

/-- Keyword arguments that json.loads delivered for ResearchReportData.
Each field is present (some) or absent (missing keys take the dataclass
default); unexpected_keys lists keys that match no dataclass field, on
which the constructor call raises TypeError. -/
structure ReportKwargs where
  company_overview : Option String := none
  founded_year : Option (Option Int) := none
  headquarters : Option String := none
  employee_count : Option String := none
  annual_revenue : Option String := none
  website : Option String := none
  recent_news : Option (List NewsItem) := none
  decision_makers : Option (List DecisionMaker) := none
  pain_points : Option (List String) := none
  opportunities : Option (List String) := none
  digital_maturity : Option String := none
  ai_footprint : Option String := none
  ai_adoption_stage : Option String := none
  strategic_goals : Option (List String) := none
  key_initiatives : Option (List String) := none
  talking_points : Option (List String) := none
  unexpected_keys : List String := []

/-- Result of json.loads on the text handed to the research extractor:
a decode error, a parsed value that is not a mapping (the double-star
expansion then raises TypeError), or a mapping read as keyword args. -/
inductive ResearchLoads where
  | decodeError (msg : String)
  | nonMapping
  | mapping (k : ReportKwargs)

/-- ResearchReportData constructed from keyword arguments: every missing
key takes the dataclass default (gemini.py dataclass field defaults). -/
def reportFromKwargs (k : ReportKwargs) : ResearchReportData where
  company_overview := k.company_overview.getD ""
  founded_year := k.founded_year.getD none
  headquarters := k.headquarters.getD ""
  employee_count := k.employee_count.getD ""
  annual_revenue := k.annual_revenue.getD ""
  website := k.website.getD ""
  recent_news := k.recent_news.getD []
  decision_makers := k.decision_makers.getD []
  pain_points := k.pain_points.getD []
  opportunities := k.opportunities.getD []
  digital_maturity := k.digital_maturity.getD ""
  ai_footprint := k.ai_footprint.getD ""
  ai_adoption_stage := k.ai_adoption_stage.getD ""
  strategic_goals := k.strategic_goals.getD []
  key_initiatives := k.key_initiatives.getD []
  talking_points := k.talking_points.getD []

/-- Python str.strip: drop leading and trailing whitespace. Implemented
by structural recursion over the character list so that concrete
counterexamples evaluate inside the kernel. -/
def pyStrip (s : String) : String :=
  String.mk (((s.data.dropWhile Char.isWhitespace).reverse.dropWhile
    Char.isWhitespace).reverse)

/-- Python str.startswith. -/
def pyStartsWith (s pre : String) : Bool :=
  pre.data.isPrefixOf s.data

/-- Split a character list at newline characters. -/
def splitLines : List Char → List (List Char)
  | [] => [[]]
  | c :: rest =>
    match splitLines rest with
    | [] => [[c]]
    | l :: ls => if c = '\n' then [] :: l :: ls else (c :: l) :: ls

/-- Python str.split on a newline separator. -/
def pySplitLines (s : String) : List String :=
  (splitLines s.data).map String.mk

/-- Python sep.join over a list of strings. -/
def pyJoin (sep : String) (ls : List String) : String :=
  String.mk (List.intercalate sep.data (ls.map String.data))

/-- Markdown code fence stripping (gemini.py lines 199 to 202 and
internal_ops.py lines 302 to 304): when the stripped response starts a
fence, drop the first and last line. -/
def stripCodeFence (t : String) : String :=
  if pyStartsWith t "```" then
    pyJoin "\n" (((pySplitLines t).drop 1).dropLast)
  else t

/-- GeminiClient.conduct_deep_research (gemini.py lines 178 to 216),
from the oracle call on: a json.JSONDecodeError is caught and turned into
the fallback record whose company_overview quotes the raw response; every
other exception (the oracle call raising, or the keyword-argument
construction raising TypeError) is logged and re-raised, modelled as
Except.error. -/
def conduct_deep_research (loads : String → ResearchLoads)
    (oracle : OracleOutcome) : Except String ResearchReportData :=
  match oracle with
  | .raise msg => .error msg
  | .reply raw =>
    let response_text := (pyStrip raw)
    let response_text := stripCodeFence response_text
    match loads response_text with
    | .decodeError _ =>
      .ok { company_overview :=
              "Research completed but structured parsing failed. Raw output:\n\n" ++ raw }
    | .nonMapping =>
      .error "TypeError: argument after double-star must be a mapping"
    | .mapping k =>
      if k.unexpected_keys.isEmpty then .ok (reportFromKwargs k)
      else .error ("TypeError: unexpected keyword argument " ++
                     pyJoin ", " k.unexpected_keys)

/-- Result of json.loads on the text handed to the internal-ops extractor.
mapping carries the record assembled by the get-with-default field reads of
internal_ops.py lines 308 to 372; badValue stands for an int or float
conversion raising on a malformed field value. -/
inductive OpsLoads where
  | decodeError (msg : String)
  | badValue (msg : String)
  | mapping (d : InternalOpsData)

/-- InternalOpsService.research_internal_ops (internal_ops.py lines 272
to 383), from the oracle call on: json.JSONDecodeError and every other
exception are both caught, returning the zero-value record with
analysis_notes populated; this extractor never raises. -/
def research_internal_ops_service (loads : String → OpsLoads)
    (oracle : OracleOutcome) : InternalOpsData :=
  match oracle with
  | .raise msg => { analysis_notes := "Research failed: " ++ msg }
  | .reply raw =>
    let response_text := stripCodeFence (pyStrip raw)
    match loads response_text with
    | .decodeError msg => { analysis_notes := "Analysis parsing failed: " ++ msg }
    | .badValue msg => { analysis_notes := "Research failed: " ++ msg }
    | .mapping d => d

/-! ### Plain-text formatting (nodes.py _format_research_result) -/

/-- Python str.title approximated over isAlpha: uppercase a letter whose
predecessor is not a letter, lowercase the others. -/
def pyTitle (s : String) : String :=
  String.mk (s.data.foldl
    (fun (acc : List Char × Bool) c =>
      let c2 := if c.isAlpha then (if acc.2 then c.toLower else c.toUpper) else c
      (acc.1 ++ [c2], c.isAlpha))
    ([], false)).1

/-- _format_research_result (nodes.py lines 408 to 481). The typed model
always carries full-keyed news and decision-maker records, so the
isinstance-of-dict branches and the get defaults for absent keys collapse
to plain field reads. -/
def format_research_result (report : ResearchReportData) : String :=
  let sections : List String := []
  let sections := if report.company_overview ≠ "" then
      sections ++ ["## Company Overview\n" ++ report.company_overview]
    else sections
  let details : List String :=
    (match report.founded_year with
     | some y => if y ≠ 0 then ["- Founded: " ++ toString y] else []
     | none => []) ++
    (if report.headquarters ≠ "" then ["- Headquarters: " ++ report.headquarters] else []) ++
    (if report.employee_count ≠ "" then ["- Employees: " ++ report.employee_count] else []) ++
    (if report.annual_revenue ≠ "" then ["- Revenue: " ++ report.annual_revenue] else []) ++
    (if report.website ≠ "" then ["- Website: " ++ report.website] else [])
  let sections := if details ≠ [] then
      sections ++ ["## Company Details\n" ++ pyJoin "\n" details]
    else sections
  let sections := if report.recent_news ≠ [] then
      sections ++ ["## Recent News\n" ++ pyJoin "\n"
        (report.recent_news.map (fun item =>
          "- **" ++ item.title ++ "**: " ++ item.summary))]
    else sections
  let sections := if report.decision_makers ≠ [] then
      sections ++ ["## Key Decision Makers\n" ++ pyJoin "\n"
        (report.decision_makers.map (fun dm =>
          "- **" ++ dm.name ++ "** - " ++ dm.title ++ ": " ++ dm.background))]
    else sections
  let sections := if report.pain_points ≠ [] then
      sections ++ ["## Pain Points\n" ++ pyJoin "\n"
        (report.pain_points.map (fun p => "- " ++ p))]
    else sections
  let sections := if report.opportunities ≠ [] then
      sections ++ ["## Opportunities\n" ++ pyJoin "\n"
        (report.opportunities.map (fun o => "- " ++ o))]
    else sections
  let sections := if report.digital_maturity ≠ "" ∨ report.ai_footprint ≠ "" then
      let dm_section := "## Digital & AI Assessment\n"
      let dm_section := if report.digital_maturity ≠ "" then
          dm_section ++ "- Digital Maturity: " ++ pyTitle report.digital_maturity ++ "\n"
        else dm_section
      let dm_section := if report.ai_adoption_stage ≠ "" then
          dm_section ++ "- AI Adoption Stage: " ++ pyTitle report.ai_adoption_stage ++ "\n"
        else dm_section
      let dm_section := if report.ai_footprint ≠ "" then
          dm_section ++ "- AI Footprint: " ++ report.ai_footprint
        else dm_section
      sections ++ [dm_section]
    else sections
  let sections := if report.strategic_goals ≠ [] then
      sections ++ ["## Strategic Goals\n" ++ pyJoin "\n"
        (report.strategic_goals.map (fun g => "- " ++ g))]
    else sections
  let sections := if report.key_initiatives ≠ [] then
      sections ++ ["## Key Initiatives\n" ++ pyJoin "\n"
        (report.key_initiatives.map (fun i => "- " ++ i))]
    else sections
  let sections := if report.talking_points ≠ [] then
      sections ++ ["## Recommended Talking Points\n" ++ pyJoin "\n"
        (report.talking_points.map (fun t => "- " ++ t))]
    else sections
  pyJoin "\n\n" sections

/-! ### Persistence model (research/models.py rows touched by finalize) -/

/-- The ResearchJob columns the core reads or writes. -/
structure JobRow where
  client_name : String := ""
  status : String := ""
  vertical : String := ""
  deriving Repr, DecidableEq

/-- The InternalOpsIntel row values written by finalize (nodes.py lines
371 to 385): the internal-ops payload plus the gap correlations taken
from workflow state. -/
structure OpsRow where
  employee_sentiment : EmployeeSentiment
  linkedin_presence : LinkedInPresence
  social_media_mentions : List SocialMediaMention
  job_postings : JobPostings
  news_sentiment : NewsSentiment
  key_insights : List String
  gap_correlations : List CorrelationDict
  confidence_score : Rat
  data_freshness : String
  analysis_notes : String
  deriving Repr, DecidableEq

/-- Persisted tables, each keyed by the parent job id. ResearchReport,
GapAnalysis and InternalOpsIntel are one-to-one with a job;
CompetitorCaseStudy is one-to-many. -/
structure Db where
  jobs : List (String × JobRow) := []
  reports : List (String × ResearchReportData) := []
  case_studies : List (String × CaseStudyDict) := []
  gap_analyses : List (String × GapDict) := []
  internal_ops_intel : List (String × OpsRow) := []
  deriving Repr, DecidableEq

/-- Row lookup by key. -/
def lookupRow {α : Type} (rows : List (String × α)) (key : String) : Option α :=
  (rows.find? (fun r => r.1 == key)).map Prod.snd

/-- Django update_or_create keyed by parent id: replace the value at the
key when a row exists, append a new row otherwise. -/
def updateOrCreate {α : Type} (rows : List (String × α)) (key : String)
    (row : α) : List (String × α) :=
  if (rows.find? (fun r => r.1 == key)).isSome then
    rows.map (fun r => if r.1 == key then (r.1, row) else r)
  else rows ++ [(key, row)]

/-- One primitive database write performed by finalize. -/
inductive DbOp where
  | saveVertical (job_id v : String)
  | upsertReport (job_id : String) (row : ResearchReportData)
  | insertCaseStudy (job_id : String) (row : CaseStudyDict)
  | upsertGap (job_id : String) (row : GapDict)
  | upsertOps (job_id : String) (row : OpsRow)
  deriving Repr, DecidableEq

/-- Effect of one primitive write on the database. -/
def applyDbOp (db : Db) : DbOp → Db
  | .saveVertical j v =>
    { db with jobs := db.jobs.map (fun r => if r.1 == j then (r.1, { r.2 with vertical := v }) else r) }
  | .upsertReport j row => { db with reports := updateOrCreate db.reports j row }
  | .insertCaseStudy j row => { db with case_studies := db.case_studies ++ [(j, row)] }
  | .upsertGap j row => { db with gap_analyses := updateOrCreate db.gap_analyses j row }
  | .upsertOps j row => { db with internal_ops_intel := updateOrCreate db.internal_ops_intel j row }

/-- Table written by a primitive op, for the call trace. -/
def dbOpTable : DbOp → String
  | .saveVertical _ _ => "research_job"
  | .upsertReport _ _ => "research_report"
  | .insertCaseStudy _ _ => "competitor_case_study"
  | .upsertGap _ _ => "gap_analysis"
  | .upsertOps _ _ => "internal_ops_intel"

/-! ### Side-effect traces and the stage environment -/

/-- One observable external call made by a stage. -/
inductive Call where
  | oracle (site : String)
  | persist (table : String)
  | memoryCapture
  deriving Repr, DecidableEq

/-- Outcome of a try block around one service call: the produced value,
or the exception message it raised. -/
inductive TryOutcome (α : Type) where
  | ok (val : α)
  | exn (msg : String)

/-- Environment fixing the outcome of every external collaborator for one
pipeline invocation: the oracle credential check, the oracle and json
outcomes per call site, an optional injected persistence failure (raise
after that many primitive writes), and the memory-capture outcome. -/
structure PipelineEnv where
  apiKeyConfigured : Bool
  researchLoads : String → ResearchLoads
  researchOracle : OracleOutcome
  classifyOutcome : TryOutcome String
  competitorOutcome : TryOutcome (List CaseStudyDict)
  gapOutcome : TryOutcome GapDict
  opsLoads : String → OpsLoads
  opsOracle : OracleOutcome
  correlateOutcome : TryOutcome (List CorrelationDict)
  persistFailStep : Option Nat
  memCaptureFails : Bool

/-! ### Node functions (research/graph/nodes.py) -/

/-- validate_input (nodes.py lines 9 to 28): empty client name or missing
oracle credential fails the state fatally; otherwise move to researching.
No oracle call is made here. -/
def validate_input (env : PipelineEnv) (s : ResearchState) :
    ResearchState × List Call :=
  if s.client_name = "" then
    ({ s with status := "failed", error := "Client name is required" }, [])
  else if ¬ env.apiKeyConfigured then
    ({ s with status := "failed", error := "Gemini API key is not configured" }, [])
  else
    ({ s with status := "researching" }, [])

/-- conduct_research (nodes.py lines 31 to 66): pass a failed state
through untouched; otherwise call the structured research extractor, and
on success store the report and its plain-text rendering, on any raised
exception fail the state fatally. -/
def conduct_research (env : PipelineEnv) (s : ResearchState) :
    ResearchState × List Call :=
  if s.status = "failed" then (s, [])
  else
    match conduct_deep_research env.researchLoads env.researchOracle with
    | .ok report =>
      ({ s with status := "classifying",
                result := format_research_result report,
                research_report := some report }, [Call.oracle "deep_research"])
    | .error e =>
      ({ s with status := "failed", error := e }, [Call.oracle "deep_research"])

/-- classify_vertical (nodes.py lines 69 to 101): pass a failed state
through; otherwise store the classifier verdict, defaulting to other on
any exception (non-fatal). The classifier service is oracle-driven, so
its outcome is read from the environment. -/
def classify_vertical (env : PipelineEnv) (s : ResearchState) :
    ResearchState × List Call :=
  if s.status = "failed" then (s, [])
  else
    match env.classifyOutcome with
    | .ok v =>
      ({ s with status := "competitor_search", vertical := some v },
       [Call.oracle "classify_vertical"])
    | .exn _ =>
      ({ s with status := "competitor_search", vertical := some "other" },
       [Call.oracle "classify_vertical"])

/-- search_competitors (nodes.py lines 104 to 151): pass a failed state
through; otherwise store the case-study list, defaulting to the empty
list on any exception (non-fatal). -/
def search_competitors (env : PipelineEnv) (s : ResearchState) :
    ResearchState × List Call :=
  if s.status = "failed" then (s, [])
  else
    match env.competitorOutcome with
    | .ok cs =>
      ({ s with status := "gap_analysis", competitor_case_studies := some cs },
       [Call.oracle "search_competitors"])
    | .exn _ =>
      ({ s with status := "gap_analysis", competitor_case_studies := some [] },
       [Call.oracle "search_competitors"])

/-- analyze_gaps (nodes.py lines 154 to 198): pass a failed state
through; otherwise store the gap dict, setting it to None on any
exception (non-fatal). -/
def analyze_gaps (env : PipelineEnv) (s : ResearchState) :
    ResearchState × List Call :=
  if s.status = "failed" then (s, [])
  else
    match env.gapOutcome with
    | .ok g =>
      ({ s with status := "completed", gap_analysis := some g },
       [Call.oracle "analyze_gaps"])
    | .exn _ =>
      ({ s with status := "completed", gap_analysis := none },
       [Call.oracle "analyze_gaps"])

/-- research_internal_ops node (nodes.py lines 201 to 239): pass a failed
state through; otherwise store the internal-ops record. The service
itself catches every exception (see research_internal_ops_service), so
the except branch of the node is not reachable through it. The node does
not change status. -/
def research_internal_ops (env : PipelineEnv) (s : ResearchState) :
    ResearchState × List Call :=
  if s.status = "failed" then (s, [])
  else
    let ops_data := research_internal_ops_service env.opsLoads env.opsOracle
    ({ s with internal_ops := some ops_data }, [Call.oracle "internal_ops"])

/-- correlate_internal_ops (nodes.py lines 242 to 289): pass a failed
state through; when either input payload is missing, skip with an empty
correlation list and no oracle call; otherwise store the correlations,
defaulting to the empty list on any exception (non-fatal). In the typed
model the payload dicts always carry every key, so Python falsiness of
the inputs coincides with Option.isNone. -/
def correlate_internal_ops (env : PipelineEnv) (s : ResearchState) :
    ResearchState × List Call :=
  if s.status = "failed" then (s, [])
  else if s.gap_analysis = none ∨ s.internal_ops = none then
    ({ s with status := "completed", gap_correlations := some [] }, [])
  else
    match env.correlateOutcome with
    | .ok l =>
      ({ s with status := "completed", gap_correlations := some l },
       [Call.oracle "correlate"])
    | .exn _ =>
      ({ s with status := "completed", gap_correlations := some [] },
       [Call.oracle "correlate"])

/-- The InternalOpsIntel row finalize writes: the payload fields plus the
gap correlations read from state with default empty (nodes.py line 380). -/
def opsRowOfState (s : ResearchState) (d : InternalOpsData) : OpsRow where
  employee_sentiment := d.employee_sentiment
  linkedin_presence := d.linkedin_presence
  social_media_mentions := d.social_media_mentions
  job_postings := d.job_postings
  news_sentiment := d.news_sentiment
  key_insights := d.key_insights
  gap_correlations := s.gap_correlations.getD []
  confidence_score := d.confidence_score
  data_freshness := d.data_freshness
  analysis_notes := d.analysis_notes

/-- The primitive writes the finalize try block performs, in program
order, paired with whether the block raises before finishing: a missing
job row raises DoesNotExist before any write, and a None case-study list
raises TypeError when iterated, after the vertical and report writes but
before the gap and ops writes (nodes.py lines 297 to 385). -/
def persistPlan (jobFound : Bool) (s : ResearchState) : List DbOp × Bool :=
  if ¬ jobFound then ([], true)
  else
    let vertical_ops : List DbOp :=
      match s.vertical with
      | some v => if v ≠ "" then [DbOp.saveVertical s.job_id v] else []
      | none => []
    let report_ops : List DbOp :=
      match s.research_report with
      | some r => [DbOp.upsertReport s.job_id r]
      | none => []
    match s.competitor_case_studies with
    | none => (vertical_ops ++ report_ops, true)
    | some cs =>
      let gap_ops : List DbOp :=
        match s.gap_analysis with
        | some g => [DbOp.upsertGap s.job_id g]
        | none => []
      let ops_ops : List DbOp :=
        match s.internal_ops with
        | some d => [DbOp.upsertOps s.job_id (opsRowOfState s d)]
        | none => []
      (vertical_ops ++ report_ops ++ cs.map (DbOp.insertCaseStudy s.job_id) ++
         gap_ops ++ ops_ops, false)

/-- finalize_result (nodes.py lines 292 to 405): pass a failed state
through; with no job id skip persistence and report completed; otherwise
run the primitive writes in order, stopping where the block raises or
where the environment injects a failure; attempt the memory capture only
when persistence finished, and swallow its failure; every outcome other
than a failed input state returns the state with status completed. -/
def finalize_result (env : PipelineEnv) (db : Db) (s : ResearchState) :
    Db × ResearchState × List Call :=
  if s.status = "failed" then (db, s, [])
  else if s.job_id = "" then (db, { s with status := "completed" }, [])
  else
    let jobFound := (lookupRow db.jobs s.job_id).isSome
    let plan := persistPlan jobFound s
    let ops := match env.persistFailStep with
      | some k => plan.1.take k
      | none => plan.1
    let db2 := ops.foldl applyDbOp db
    let success := env.persistFailStep.isNone && !plan.2
    let trace := ops.map (fun op => Call.persist (dbOpTable op)) ++
      (if success then [Call.memoryCapture] else [])
    (db2, { s with status := "completed" }, trace)

/-! ### Pipeline orchestrator (research/graph/workflow.py) -/

/-- should_continue (workflow.py lines 14 to 18). -/
def should_continue (s : ResearchState) : String :=
  if s.status = "failed" then "end" else "continue"

/-- Result of one workflow invocation: final state, database after
finalize, the external calls made, and the names of the executed stage
nodes in order. -/
structure RunResult where
  state : ResearchState
  db : Db
  calls : List Call
  stages : List String
  deriving Repr, DecidableEq

/-- The compiled graph of build_research_workflow (workflow.py lines 21
to 95): entry point validate, then conditional edges validate to
research to classify to competitors to gap_analysis to finalize, each
ending the run when should_continue answers end, and finalize to END.
The research_internal_ops and correlate_internal_ops node functions are
not added to this graph. -/
def run_research_workflow (env : PipelineEnv) (db : Db) (s0 : ResearchState) :
    RunResult :=
  let (s1, c1) := validate_input env s0
  if should_continue s1 = "end" then
    { state := s1, db := db, calls := c1, stages := ["validate"] }
  else
    let (s2, c2) := conduct_research env s1
    if should_continue s2 = "end" then
      { state := s2, db := db, calls := c1 ++ c2, stages := ["validate", "research"] }
    else
      let (s3, c3) := classify_vertical env s2
      if should_continue s3 = "end" then
        { state := s3, db := db, calls := c1 ++ c2 ++ c3,
          stages := ["validate", "research", "classify"] }
      else
        let (s4, c4) := search_competitors env s3
        if should_continue s4 = "end" then
          { state := s4, db := db, calls := c1 ++ c2 ++ c3 ++ c4,
            stages := ["validate", "research", "classify", "competitors"] }
        else
          let (s5, c5) := analyze_gaps env s4
          if should_continue s5 = "end" then
            { state := s5, db := db, calls := c1 ++ c2 ++ c3 ++ c4 ++ c5,
              stages := ["validate", "research", "classify", "competitors",
                         "gap_analysis"] }
          else
            let (db6, s6, c6) := finalize_result env db s5
            { state := s6, db := db6, calls := c1 ++ c2 ++ c3 ++ c4 ++ c5 ++ c6,
              stages := ["validate", "research", "classify", "competitors",
                         "gap_analysis", "finalize"] }

/-! ### Project and iteration records (projects/models.py), as read by the
context accumulator and the comparator -/

/-- A use case row attached to a research job. -/
structure UseCaseRec where
  title : String := ""
  description : String := ""
  business_problem : String := ""
  impact_score : Int := 0
  feasibility_score : Int := 0
  priority : String := ""
  deriving Repr, DecidableEq

/-- The research job attached to an iteration, with the related rows the
context accumulator and comparator read back; personas and competitor
case studies are only ever counted by this code, so only counts are
carried. -/
structure ResearchJobRec where
  id : String := ""
  client_name : String := ""
  status : String := ""
  vertical : String := ""
  report : Option ResearchReportData := none
  gap_analysis : Option GapDict := none
  use_cases : List UseCaseRec := []
  personas_count : Nat := 0
  case_studies_count : Nat := 0
  deriving Repr, DecidableEq

/-- One iteration row; research_job is the reverse one-to-one, absent
when no pipeline run is attached. -/
structure IterationRec where
  id : String := ""
  sequence : Nat := 0
  name : String := ""
  status : String := ""
  created_at : String := ""
  research_job : Option ResearchJobRec := none
  deriving Repr, DecidableEq

/-- The generated object a starred work product points to, with the
attributes read by getattr in context.py. -/
structure PlayObj where
  title : String := ""
  value_proposition : String := ""
  elevator_pitch : String := ""
  deriving Repr, DecidableEq

/-- A work product bookmark owned by a project. -/
structure WorkProductRec where
  starred : Bool := false
  category : String := ""
  content_object : Option PlayObj := none
  source_iteration_sequence : Option Nat := none
  notes : String := ""
  deriving Repr, DecidableEq

/-- A user annotation row owned by a project. -/
structure NoteRec where
  text : String := ""
  created_at : String := ""
  deriving Repr, DecidableEq

/-- A project with its owned rows. -/
structure ProjectRec where
  context_mode : String := "accumulate"
  iterations : List IterationRec := []
  work_products : List WorkProductRec := []
  annotations : List NoteRec := []
  deriving Repr, DecidableEq

/-! ### Context accumulator (projects/services/context.py) -/

/-- Summary of an iteration (dict of _summarize_iteration). -/
structure IterSummary where
  sequence : Nat
  name : String
  client_name : String
  status : String
  created_at : String
  deriving Repr, DecidableEq

/-- Summary of a research report (dict of _summarize_report). -/
structure ReportSummary where
  company_overview : String
  digital_maturity : String
  ai_adoption_stage : String
  ai_footprint : String
  key_initiatives : List String
  strategic_goals : List String
  deriving Repr, DecidableEq

/-- A promising use case entry (dict built in _get_use_cases). -/
structure UseCaseCtx where
  title : String
  description : String
  business_problem : String
  impact_score : Int
  feasibility_score : Int
  deriving Repr, DecidableEq

/-- A starred play entry (dict built in _get_starred_plays). -/
structure PlayCtx where
  title : String
  value_proposition : String
  elevator_pitch : String
  iteration_sequence : Option Nat
  notes : String
  deriving Repr, DecidableEq

/-- A user note entry (dict built in _get_annotations). -/
structure NoteCtx where
  text : String
  created_at : String
  deriving Repr, DecidableEq

/-- A value stored under one key of a context bundle. -/
inductive CtxVal where
  | vIterSummary (s : Option IterSummary)
  | vReportSummary (r : Option ReportSummary)
  | vStrList (l : List String)
  | vUseCases (l : List UseCaseCtx)
  | vPlays (l : List PlayCtx)
  | vNotes (l : List NoteCtx)
  | vCount (n : Nat)
  deriving Repr, DecidableEq

/-- Python truthiness of a bundle value, deciding the drop-empty filter:
None, empty lists and zero are falsy; the summary dicts, when present,
always carry keys and are truthy. -/
def pyTruthy : CtxVal → Bool
  | .vIterSummary s => s.isSome
  | .vReportSummary r => r.isSome
  | .vStrList l => !l.isEmpty
  | .vUseCases l => !l.isEmpty
  | .vPlays l => !l.isEmpty
  | .vNotes l => !l.isEmpty
  | .vCount n => n != 0

/-- A context bundle: the insertion-ordered key-value dict. -/
abbrev CtxBundle := List (String × CtxVal)

/-- _summarize_iteration (context.py lines 50 to 62). -/
def summarize_iteration (it : IterationRec) : Option IterSummary :=
  match it.research_job with
  | none => none
  | some job =>
    some { sequence := it.sequence,
           name := if it.name ≠ "" then it.name else "Iteration " ++ toString it.sequence,
           client_name := job.client_name,
           status := job.status,
           created_at := it.created_at }

/-- _summarize_report (context.py lines 64 to 81). -/
def summarize_report (it : IterationRec) : Option ReportSummary :=
  it.research_job.bind fun job =>
    job.report.map fun report =>
      { company_overview := report.company_overview,
        digital_maturity := report.digital_maturity,
        ai_adoption_stage := report.ai_adoption_stage,
        ai_footprint := report.ai_footprint,
        key_initiatives := report.key_initiatives,
        strategic_goals := report.strategic_goals }

/-- _get_pain_points (context.py lines 83 to 92; comparison.py duplicates
the same reader). -/
def get_pain_points (it : IterationRec) : List String :=
  match it.research_job with
  | none => []
  | some job =>
    match job.report with
    | none => []
    | some report => report.pain_points

/-- _get_opportunities (context.py lines 94 to 103; comparison.py
duplicates the same reader). -/
def get_opportunities (it : IterationRec) : List String :=
  match it.research_job with
  | none => []
  | some job =>
    match job.report with
    | none => []
    | some report => report.opportunities

/-- _get_talking_points (comparison.py lines 129 to 136). -/
def get_talking_points (it : IterationRec) : List String :=
  match it.research_job with
  | none => []
  | some job =>
    match job.report with
    | none => []
    | some report => report.talking_points

/-- _get_use_cases (context.py lines 105 to 122): the first five
high-priority use cases of the attached job. -/
def get_use_cases (it : IterationRec) : List UseCaseCtx :=
  match it.research_job with
  | none => []
  | some job =>
    ((job.use_cases.filter (fun uc => uc.priority == "high")).take 5).map
      fun uc =>
        { title := uc.title,
          description := uc.description,
          business_problem := uc.business_problem,
          impact_score := uc.impact_score,
          feasibility_score := uc.feasibility_score }

/-- _get_starred_plays (context.py lines 124 to 146): up to ten starred
play-category work products; bookmarks whose target object is gone are
skipped. -/
def get_starred_plays (p : ProjectRec) : List PlayCtx :=
  ((p.work_products.filter (fun wp => wp.starred && wp.category == "play")).take 10).filterMap
    fun wp =>
      wp.content_object.map fun obj =>
        { title := obj.title,
          value_proposition := obj.value_proposition,
          elevator_pitch := obj.elevator_pitch,
          iteration_sequence := wp.source_iteration_sequence,
          notes := wp.notes }

/-- _get_annotations (context.py lines 148 to 158): up to twenty user
notes of the project. -/
def get_project_notes (p : ProjectRec) : List NoteCtx :=
  (p.annotations.take 20).map fun a =>
    { text := a.text, created_at := a.created_at }

/-- The iteration with the largest sequence among a list, earliest one on
ties (sequences are unique within a project, so ties do not arise). -/
def maxBySequence (l : List IterationRec) : Option IterationRec :=
  l.foldl
    (fun acc x =>
      match acc with
      | none => some x
      | some y => if y.sequence < x.sequence then some x else some y)
    none

/-- The Django query of build_context (context.py lines 25 to 28): the
iteration of the same project with the largest sequence strictly below
the target. -/
def prevIteration (p : ProjectRec) (it : IterationRec) : Option IterationRec :=
  maxBySequence (p.iterations.filter (fun j => j.sequence < it.sequence))

/-- ContextAccumulator.build_context (context.py lines 11 to 48):
empty under fresh mode, with no prior iteration, or when the prior
iteration has no research job; otherwise the seven-key bundle with the
falsy values dropped. -/
def build_context (p : ProjectRec) (it : IterationRec) : CtxBundle :=
  if p.context_mode = "fresh" then []
  else
    match prevIteration p it with
    | none => []
    | some prev =>
      match prev.research_job with
      | none => []
      | some _ =>
        let context : CtxBundle :=
          [("previous_iteration_summary", CtxVal.vIterSummary (summarize_iteration prev)),
           ("previous_report_summary", CtxVal.vReportSummary (summarize_report prev)),
           ("identified_pain_points", CtxVal.vStrList (get_pain_points prev)),
           ("identified_opportunities", CtxVal.vStrList (get_opportunities prev)),
           ("promising_use_cases", CtxVal.vUseCases (get_use_cases prev)),
           ("starred_plays", CtxVal.vPlays (get_starred_plays p)),
           ("user_notes", CtxVal.vNotes (get_project_notes p))]
        context.filter (fun kv => pyTruthy kv.2)

/-- Insert an iteration into a sequence-sorted list, after entries of
equal or smaller sequence. -/
def insertBySeq (x : IterationRec) : List IterationRec → List IterationRec
  | [] => [x]
  | y :: l => if x.sequence < y.sequence then x :: y :: l else y :: insertBySeq x l

/-- Ascending sort by sequence, the order_by of get_cumulative_context. -/
def sortBySequence : List IterationRec → List IterationRec
  | [] => []
  | x :: l => insertBySeq x (sortBySequence l)

/-- All iterations of the project with sequence strictly below the
target, in ascending sequence order (context.py lines 169 to 172). -/
def priorIterations (p : ProjectRec) (it : IterationRec) : List IterationRec :=
  sortBySequence (p.iterations.filter (fun j => j.sequence < it.sequence))

/-- dict.fromkeys deduplication: keep each string at only its first
occurrence, preserving order; seen accumulates the kept strings. -/
def dedupFirstAux (seen : List String) : List String → List String
  | [] => []
  | a :: l => if a ∈ seen then dedupFirstAux seen l else a :: dedupFirstAux (a :: seen) l

/-- list of dict.fromkeys over a list (context.py lines 184 to 185). -/
def dedupFirst (l : List String) : List String := dedupFirstAux [] l

/-- Use-case deduplication by title, first occurrence winning
(context.py lines 188 to 193). -/
def dedupUseCasesAux (seen : List String) : List UseCaseCtx → List UseCaseCtx
  | [] => []
  | uc :: l =>
    if uc.title ∈ seen then dedupUseCasesAux seen l
    else uc :: dedupUseCasesAux (uc.title :: seen) l

/-- The pain points collected over all prior iterations in ascending
sequence order, before deduplication. -/
def collectedPainPoints (p : ProjectRec) (it : IterationRec) : List String :=
  ((priorIterations p it).map get_pain_points).flatten

/-- The opportunities collected over all prior iterations in ascending
sequence order, before deduplication. -/
def collectedOpportunities (p : ProjectRec) (it : IterationRec) : List String :=
  ((priorIterations p it).map get_opportunities).flatten

/-- The use cases collected over all prior iterations in ascending
sequence order, before deduplication. -/
def collectedUseCases (p : ProjectRec) (it : IterationRec) : List UseCaseCtx :=
  ((priorIterations p it).map get_use_cases).flatten

/-- ContextAccumulator.get_cumulative_context (context.py lines 160 to
204): walk every prior iteration in ascending sequence order, collect and
deduplicate findings, and drop falsy values from the six-key bundle. -/
def get_cumulative_context (p : ProjectRec) (it : IterationRec) : CtxBundle :=
  if p.context_mode = "fresh" then []
  else
    let unique_pain_points := dedupFirst (collectedPainPoints p it)
    let unique_opportunities := dedupFirst (collectedOpportunities p it)
    let unique_use_cases := dedupUseCasesAux [] (collectedUseCases p it)
    let context : CtxBundle :=
      [("iteration_count", CtxVal.vCount (priorIterations p it).length),
       ("cumulative_pain_points", CtxVal.vStrList unique_pain_points),
       ("cumulative_opportunities", CtxVal.vStrList unique_opportunities),
       ("cumulative_use_cases", CtxVal.vUseCases unique_use_cases),
       ("starred_plays", CtxVal.vPlays (get_starred_plays p)),
       ("user_notes", CtxVal.vNotes (get_project_notes p))]
    context.filter (fun kv => pyTruthy kv.2)

/-! ### Iteration comparator (projects/services/comparison.py) -/

/-- The research job sub-dict of a comparison snapshot. -/
structure JobSnap where
  id : String
  client_name : String
  status : String
  vertical : String
  deriving Repr, DecidableEq

/-- The report sub-dict of a comparison snapshot. -/
structure ReportSnap where
  company_overview : String
  pain_points : List String
  opportunities : List String
  digital_maturity : String
  ai_adoption_stage : String
  talking_points : List String
  decision_makers : List DecisionMaker
  deriving Repr, DecidableEq

/-- The gap-analysis sub-dict of a comparison snapshot. -/
structure GapSnap where
  technology_gaps : List String
  capability_gaps : List String
  process_gaps : List String
  recommendations : List String
  priority_areas : List String
  deriving Repr, DecidableEq

/-- _extract_iteration_data output: identity fields always present, the
job-derived fields only when a research job is attached. -/
structure IterSnapshot where
  id : String
  sequence : Nat
  name : String
  status : String
  created_at : String
  research_job : Option JobSnap
  report : Option ReportSnap
  gap_analysis : Option GapSnap
  use_cases_count : Option Nat
  personas_count : Option Nat
  competitor_case_studies_count : Option Nat
  deriving Repr, DecidableEq

/-- _extract_iteration_data (comparison.py lines 26 to 79). -/
def extract_iteration_data (it : IterationRec) : IterSnapshot :=
  let base : IterSnapshot :=
    { id := it.id,
      sequence := it.sequence,
      name := if it.name ≠ "" then it.name else "Iteration " ++ toString it.sequence,
      status := it.status,
      created_at := it.created_at,
      research_job := none, report := none, gap_analysis := none,
      use_cases_count := none, personas_count := none,
      competitor_case_studies_count := none }
  match it.research_job with
  | none => base
  | some job =>
    { base with
      research_job := some { id := job.id, client_name := job.client_name,
                             status := job.status, vertical := job.vertical },
      report := job.report.map fun report =>
        { company_overview := report.company_overview,
          pain_points := report.pain_points,
          opportunities := report.opportunities,
          digital_maturity := report.digital_maturity,
          ai_adoption_stage := report.ai_adoption_stage,
          talking_points := report.talking_points,
          decision_makers := report.decision_makers },
      gap_analysis := job.gap_analysis.map fun gap =>
        { technology_gaps := gap.technology_gaps,
          capability_gaps := gap.capability_gaps,
          process_gaps := gap.process_gaps,
          recommendations := gap.recommendations,
          priority_areas := gap.priority_areas },
      use_cases_count := some job.use_cases.length,
      personas_count := some job.personas_count,
      competitor_case_studies_count := some job.case_studies_count }

/-- The set-difference triple of _diff_lists. Python materialises the
three sets back into lists in unspecified order; the sets themselves are
modelled. -/
structure DiffTriple where
  added : Finset String
  removed : Finset String
  unchanged : Finset String
  deriving DecidableEq

/-- _diff_lists (comparison.py lines 100 to 109): convert both lists to
sets and take the two differences and the intersection. -/
def diff_lists (list_a list_b : List String) : DiffTriple :=
  let set_a := list_a.toFinset
  let set_b := list_b.toFinset
  { added := set_b \ set_a, removed := set_a \ set_b, unchanged := set_a ∩ set_b }

/-- The three diffed findings of _compute_differences. -/
structure Differences where
  pain_points : DiffTriple
  opportunities : DiffTriple
  talking_points : DiffTriple
  deriving DecidableEq

/-- _compute_differences (comparison.py lines 81 to 98). -/
def compute_differences (iteration_a iteration_b : IterationRec) : Differences :=
  { pain_points := diff_lists (get_pain_points iteration_a) (get_pain_points iteration_b),
    opportunities := diff_lists (get_opportunities iteration_a) (get_opportunities iteration_b),
    talking_points := diff_lists (get_talking_points iteration_a) (get_talking_points iteration_b) }

/-- IterationComparator.compare output dict. -/
structure CompareResult where
  iteration_a : IterSnapshot
  iteration_b : IterSnapshot
  differences : Differences
  deriving DecidableEq

/-- IterationComparator.compare (comparison.py lines 9 to 24). -/
def compare (iteration_a iteration_b : IterationRec) : CompareResult :=
  { iteration_a := extract_iteration_data iteration_a,
    iteration_b := extract_iteration_data iteration_b,
    differences := compute_differences iteration_a iteration_b }

/-! ### Concrete fixtures used by witnesses and counterexamples -/

/-- A pipeline environment in which every collaborator succeeds. -/
def okEnv : PipelineEnv where
  apiKeyConfigured := true
  researchLoads := fun _ => ResearchLoads.mapping {}
  researchOracle := OracleOutcome.reply "raw json report"
  classifyOutcome := TryOutcome.ok "technology"
  competitorOutcome := TryOutcome.ok []
  gapOutcome := TryOutcome.ok {}
  opsLoads := fun _ => OpsLoads.mapping {}
  opsOracle := OracleOutcome.reply "raw json ops"
  correlateOutcome := TryOutcome.ok []
  persistFailStep := none
  memCaptureFails := false

/-- The initial workflow state run_research_sync builds for a job. -/
def acmeState : ResearchState where
  client_name := "Acme Corp"
  sales_history := ""
  prompt := ""
  job_id := "job-1"
  status := "pending"
  result := ""
  error := ""
  research_report := none
  vertical := none
  competitor_case_studies := none
  gap_analysis := none
  internal_ops := none
  gap_correlations := none

/-- A database holding the job row the fixtures persist into. -/
def jobDb : Db where
  jobs := [("job-1", {})]
  reports := []
  case_studies := []
  gap_analyses := []
  internal_ops_intel := []

/-- A state that already failed validation. -/
def failedState : ResearchState :=
  { acmeState with client_name := "", status := "failed",
                   error := "Client name is required" }

/-! ### Claim theorems -/

/-- C1: on a state whose status is failed, every stage function invoked
after validate (research, classify, competitor search, gap analysis,
internal ops, correlate, finalize) returns the state unchanged, makes no
oracle call, and finalize leaves the database untouched and makes no
persistence or memory-capture call. -/
theorem failed_state_passthrough (env : PipelineEnv) (db : Db)
    (s : ResearchState) (h : s.status = "failed") :
    conduct_research env s = (s, []) ∧
    classify_vertical env s = (s, []) ∧
    search_competitors env s = (s, []) ∧
    analyze_gaps env s = (s, []) ∧
    research_internal_ops env s = (s, []) ∧
    correlate_internal_ops env s = (s, []) ∧
    finalize_result env db s = (db, s, []) := by
  refine ⟨?_, ?_, ?_, ?_, ?_, ?_, ?_⟩ <;>
    simp [conduct_research, classify_vertical, search_competitors,
          analyze_gaps, research_internal_ops, correlate_internal_ops,
          finalize_result, h]

/-- Witness for C1 at a concrete failed state. -/
theorem failed_state_passthrough_witness :
    failedState.status = "failed" ∧
    conduct_research okEnv failedState = (failedState, []) ∧
    finalize_result okEnv jobDb failedState = (jobDb, failedState, []) :=
  ⟨rfl, (failed_state_passthrough okEnv jobDb failedState rfl).1,
        (failed_state_passthrough okEnv jobDb failedState rfl).2.2.2.2.2.2⟩

/-- C5: on a non-failed state in which gap_analysis or internal_ops is
missing, correlate sets gap_correlations to the empty list, makes no
oracle call, and changes nothing else but status. -/
theorem correlate_skips_on_missing_input (env : PipelineEnv)
    (s : ResearchState) (hs : s.status ≠ "failed")
    (h : s.gap_analysis = none ∨ s.internal_ops = none) :
    correlate_internal_ops env s =
      ({ s with status := "completed", gap_correlations := some [] }, []) := by
  unfold correlate_internal_ops
  rw [if_neg hs, if_pos h]

/-- Witness for C5: a pending state with no gap analysis payload. -/
theorem correlate_skips_on_missing_input_witness :
    correlate_internal_ops okEnv acmeState =
      ({ acmeState with status := "completed", gap_correlations := some [] }, []) :=
  correlate_skips_on_missing_input okEnv acmeState
    (by simp [acmeState]) (Or.inl rfl)

/-- C8: on any non-failed input state, finalize returns the state with
status completed and nothing else changed, whatever the persistence and
memory-capture outcomes injected by the environment. -/
theorem finalize_always_reports_completed (env : PipelineEnv) (db : Db)
    (s : ResearchState) (hs : s.status ≠ "failed") :
    (finalize_result env db s).2.1 = { s with status := "completed" } := by
  unfold finalize_result
  rw [if_neg hs]
  by_cases hj : s.job_id = "" <;> simp [hj]

/-- Witness for C8: a completed-so-far state, an environment whose
persistence raises immediately and whose memory capture fails. -/
theorem finalize_always_reports_completed_witness :
    (finalize_result
        { okEnv with persistFailStep := some 0, memCaptureFails := true }
        jobDb { acmeState with status := "completed" }).2.1 =
      { acmeState with status := "completed" } :=
  finalize_always_reports_completed
    { okEnv with persistFailStep := some 0, memCaptureFails := true }
    jobDb { acmeState with status := "completed" } (by simp [acmeState])

/-- C6: on any input state with an empty client name, the pipeline stops
at validate: the final state is failed with a human-readable error, no
oracle or persistence call is made, the database is untouched, and no
later stage runs. -/
theorem empty_client_name_fails_without_oracle_call (env : PipelineEnv)
    (db : Db) (s : ResearchState) (h : s.client_name = "") :
    (run_research_workflow env db s).state =
      { s with status := "failed", error := "Client name is required" } ∧
    (run_research_workflow env db s).calls = [] ∧
    (run_research_workflow env db s).stages = ["validate"] ∧
    (run_research_workflow env db s).db = db := by
  have hv : validate_input env s =
      ({ s with status := "failed", error := "Client name is required" }, []) := by
    unfold validate_input
    rw [if_pos h]
  refine ⟨?_, ?_, ?_, ?_⟩ <;>
    simp [run_research_workflow, hv, should_continue]

/-- Witness for C6 at a concrete empty-name state. -/
theorem empty_client_name_fails_without_oracle_call_witness :
    (run_research_workflow okEnv jobDb { acmeState with client_name := "" }).calls = [] :=
  (empty_client_name_fails_without_oracle_call okEnv jobDb
    { acmeState with client_name := "" } rfl).2.1

/-- On a non-failed input, classify always leaves status competitor_search,
whether the classifier succeeded or degraded to other. -/
theorem classify_vertical_status (env : PipelineEnv) (s : ResearchState)
    (h : s.status ≠ "failed") :
    (classify_vertical env s).1.status = "competitor_search" := by
  unfold classify_vertical
  rw [if_neg h]
  cases env.classifyOutcome <;> rfl

/-- On a non-failed input, competitor search always leaves status
gap_analysis, whether it succeeded or degraded to the empty list. -/
theorem search_competitors_status (env : PipelineEnv) (s : ResearchState)
    (h : s.status ≠ "failed") :
    (search_competitors env s).1.status = "gap_analysis" := by
  unfold search_competitors
  rw [if_neg h]
  cases env.competitorOutcome <;> rfl

/-- On a non-failed input, gap analysis always leaves status completed,
whether it succeeded or degraded to None. -/
theorem analyze_gaps_status (env : PipelineEnv) (s : ResearchState)
    (h : s.status ≠ "failed") :
    (analyze_gaps env s).1.status = "completed" := by
  unfold analyze_gaps
  rw [if_neg h]
  cases env.gapOutcome <;> rfl

/-- C2 counterexample: on a fully successful concrete invocation the
compiled workflow executes exactly validate, research, classify,
competitors, gap_analysis, finalize; the internal_ops and correlate node
functions are never executed and their state fields stay None, refuting
the claim that the internal_ops stage is executed on every invocation. -/
theorem workflow_omits_internal_ops_stage :
    (run_research_workflow okEnv jobDb acmeState).state.status = "completed" ∧
    (run_research_workflow okEnv jobDb acmeState).stages =
      ["validate", "research", "classify", "competitors", "gap_analysis", "finalize"] ∧
    "internal_ops" ∉ (run_research_workflow okEnv jobDb acmeState).stages ∧
    "correlate" ∉ (run_research_workflow okEnv jobDb acmeState).stages ∧
    (run_research_workflow okEnv jobDb acmeState).state.internal_ops = none ∧
    (run_research_workflow okEnv jobDb acmeState).state.gap_correlations = none := by
  refine ⟨rfl, rfl, ?_, ?_, rfl, rfl⟩ <;> decide

/-- C2 amended: every invocation executes the stage functions strictly in
the order validate, research, classify, competitor search, gap analysis,
finalize, threading each returned state into the next and stopping only
after a failed validate or research; the internal_ops and correlate node
functions are not part of the compiled graph and never execute. -/
theorem workflow_stage_order (env : PipelineEnv) (db : Db) (s : ResearchState) :
    ((run_research_workflow env db s).stages = ["validate"] ∨
     (run_research_workflow env db s).stages = ["validate", "research"] ∨
     (run_research_workflow env db s).stages =
       ["validate", "research", "classify", "competitors", "gap_analysis", "finalize"]) ∧
    "internal_ops" ∉ (run_research_workflow env db s).stages ∧
    "correlate" ∉ (run_research_workflow env db s).stages := by
  unfold run_research_workflow
  rcases hval : validate_input env s with ⟨s1, c1⟩
  dsimp only
  by_cases hc1 : should_continue s1 = "end"
  · rw [if_pos hc1]
    refine ⟨Or.inl rfl, ?_, ?_⟩
    · show "internal_ops" ∉ ["validate"]
      decide
    · show "correlate" ∉ ["validate"]
      decide
  · rw [if_neg hc1]
    rcases hres : conduct_research env s1 with ⟨s2, c2⟩
    dsimp only
    by_cases hc2 : should_continue s2 = "end"
    · rw [if_pos hc2]
      refine ⟨Or.inr (Or.inl rfl), ?_, ?_⟩
      · show "internal_ops" ∉ ["validate", "research"]
        decide
      · show "correlate" ∉ ["validate", "research"]
        decide
    · rw [if_neg hc2]
      have hs2 : s2.status ≠ "failed" := by
        intro hf
        exact hc2 (by simp [should_continue, hf])
      rcases hcl : classify_vertical env s2 with ⟨s3, c3⟩
      have hs3 : s3.status = "competitor_search" := by
        have h := classify_vertical_status env s2 hs2
        rw [hcl] at h
        exact h
      dsimp only
      rw [if_neg (by simp [should_continue, hs3])]
      have hs3ne : s3.status ≠ "failed" := by simp [hs3]
      rcases hcomp : search_competitors env s3 with ⟨s4, c4⟩
      have hs4 : s4.status = "gap_analysis" := by
        have h := search_competitors_status env s3 hs3ne
        rw [hcomp] at h
        exact h
      dsimp only
      rw [if_neg (by simp [should_continue, hs4])]
      have hs4ne : s4.status ≠ "failed" := by simp [hs4]
      rcases hgap : analyze_gaps env s4 with ⟨s5, c5⟩
      have hs5 : s5.status = "completed" := by
        have h := analyze_gaps_status env s4 hs4ne
        rw [hgap] at h
        exact h
      dsimp only
      rw [if_neg (by simp [should_continue, hs5])]
      rcases hfin : finalize_result env db s5 with ⟨db6, s6, c6⟩
      dsimp only
      refine ⟨Or.inr (Or.inr rfl), ?_, ?_⟩
      · show "internal_ops" ∉
          ["validate", "research", "classify", "competitors", "gap_analysis", "finalize"]
        decide
      · show "correlate" ∉
          ["validate", "research", "classify", "competitors", "gap_analysis", "finalize"]
        decide

/-- A json library outcome that always reports a decode failure. -/
def decodeErrLoads : String → ResearchLoads :=
  fun _ => ResearchLoads.decodeError "Expecting value: line 1 column 1 (char 0)"

/-- C3 counterexample: when the oracle call itself raises, the research
extractor does not return a FallbackRecord; the exception is re-raised
past its boundary, refuting the claim that it returns a record on every
exception. -/
theorem conduct_deep_research_raises_on_oracle_error :
    conduct_deep_research decodeErrLoads (OracleOutcome.raise "quota exceeded") =
      Except.error "quota exceeded" := rfl

/-- C3 amended: the research extractor returns the zero-value record with
company_overview populated from context only on JSON-parse failure; on
any other exception (here, the oracle call raising) it logs and
re-raises, and the research stage catches that and fails the pipeline
state; the internal-ops extractor, by contrast, catches every exception
and returns its fallback record. -/
theorem conduct_deep_research_fallback_policy
    (loads : String → ResearchLoads) (raw msg m : String)
    (hdec : loads (stripCodeFence (pyStrip raw)) = ResearchLoads.decodeError msg) :
    conduct_deep_research loads (OracleOutcome.reply raw) =
      Except.ok { company_overview :=
        "Research completed but structured parsing failed. Raw output:\n\n" ++ raw } ∧
    conduct_deep_research loads (OracleOutcome.raise m) = Except.error m ∧
    (∀ env : PipelineEnv, ∀ s : ResearchState,
      env.researchOracle = OracleOutcome.raise m → s.status ≠ "failed" →
      conduct_research env s =
        ({ s with status := "failed", error := m }, [Call.oracle "deep_research"])) ∧
    (∀ oloads : String → OpsLoads,
      research_internal_ops_service oloads (OracleOutcome.raise m) =
        { analysis_notes := "Research failed: " ++ m }) := by
  refine ⟨?_, rfl, ?_, fun _ => rfl⟩
  · unfold conduct_deep_research
    dsimp only
    rw [hdec]
  · intro env s ho hs
    unfold conduct_research
    rw [if_neg hs, ho]
    rfl

/-- Witness for C3 amended, on a non-JSON oracle reply and on a raising
oracle. -/
theorem conduct_deep_research_fallback_policy_witness :
    conduct_deep_research decodeErrLoads (OracleOutcome.reply "not json") =
      Except.ok { company_overview :=
        "Research completed but structured parsing failed. Raw output:\n\nnot json" } ∧
    research_internal_ops_service (fun _ => OpsLoads.decodeError "bad")
        (OracleOutcome.raise "boom") =
      { analysis_notes := "Research failed: boom" } :=
  ⟨(conduct_deep_research_fallback_policy decodeErrLoads "not json"
      "Expecting value: line 1 column 1 (char 0)" "boom" rfl).1,
   (conduct_deep_research_fallback_policy decodeErrLoads "not json"
      "Expecting value: line 1 column 1 (char 0)" "boom" rfl).2.2.2
     (fun _ => OpsLoads.decodeError "bad")⟩

/-- One competitor case study payload row. -/
def csRow : CaseStudyDict :=
  { competitor_name := "Rival Inc", case_study_title := "AI rollout at Rival" }

/-- A fully populated state about to be finalized. -/
def finalizeState : ResearchState :=
  { acmeState with
      status := "completed",
      vertical := some "technology",
      research_report := some {},
      competitor_case_studies := some [csRow],
      gap_analysis := some {},
      internal_ops := some {},
      gap_correlations := some [] }

/-- C4 counterexample: finalizing the same state twice with the same
job id and payloads appends the competitor case-study row again, so the
persisted row set after two calls differs from the row set after one,
refuting the claim that no duplicate rows appear for any payload type. -/
theorem finalize_twice_duplicates_case_studies :
    ((finalize_result okEnv jobDb finalizeState).1).case_studies =
      [("job-1", csRow)] ∧
    ((finalize_result okEnv (finalize_result okEnv jobDb finalizeState).1
        finalizeState).1).case_studies =
      [("job-1", csRow), ("job-1", csRow)] := ⟨rfl, rfl⟩

/-- A map that fixes first components preserves presence of a key. -/
theorem find?_isSome_map_keyfix {α : Type} (rows : List (String × α))
    (k : String) (f : String × α → String × α) (hf : ∀ r, (f r).1 = r.1) :
    (((rows.map f).find? (fun r => r.1 == k)).isSome) =
      ((rows.find? (fun r => r.1 == k)).isSome) := by
  induction rows with
  | nil => rfl
  | cons r rest ih =>
    rw [List.map_cons]
    by_cases h : r.1 = k
    · rw [List.find?_cons_of_pos _ (by simp [hf r, h]),
          List.find?_cons_of_pos _ (by simp [h])]
      rfl
    · rw [List.find?_cons_of_neg _ (by simp [hf r, h]),
          List.find?_cons_of_neg _ (by simp [h])]
      exact ih

/-- Presence of a key in an appended row list. -/
theorem find?_isSome_append {α : Type} (l₁ l₂ : List (String × α))
    (p : String × α → Bool) :
    (((l₁ ++ l₂).find? p).isSome) =
      (((l₁.find? p).isSome) || ((l₂.find? p).isSome)) := by
  induction l₁ with
  | nil => simp
  | cons a l ih =>
    by_cases h : p a
    · simp [List.find?_cons, h]
    · simp [List.find?_cons, h, ih]

/-- The branch of updateOrCreate when the key is present. -/
theorem updateOrCreate_of_contains {α : Type} (rows : List (String × α))
    (k : String) (row : α)
    (h : ((rows.find? (fun r => r.1 == k)).isSome) = true) :
    updateOrCreate rows k row =
      rows.map (fun r => if r.1 == k then (r.1, row) else r) := by
  unfold updateOrCreate
  rw [if_pos h]

/-- The branch of updateOrCreate when the key is absent. -/
theorem updateOrCreate_of_not_contains {α : Type} (rows : List (String × α))
    (k : String) (row : α)
    (h : ((rows.find? (fun r => r.1 == k)).isSome) = false) :
    updateOrCreate rows k row = rows ++ [(k, row)] := by
  unfold updateOrCreate
  rw [if_neg (by simp [h])]

/-- An updated-or-created row list always contains the key. -/
theorem updateOrCreate_contains {α : Type} (rows : List (String × α))
    (k : String) (row : α) :
    (((updateOrCreate rows k row).find? (fun r => r.1 == k)).isSome) = true := by
  by_cases h : ((rows.find? (fun r => r.1 == k)).isSome) = true
  · rw [updateOrCreate_of_contains rows k row h]
    rw [find?_isSome_map_keyfix rows k _
      (fun r => by by_cases hr : r.1 = k <;> simp [hr])]
    exact h
  · rw [updateOrCreate_of_not_contains rows k row (Bool.eq_false_iff.mpr h)]
    rw [find?_isSome_append]
    simp [List.find?_cons]

/-- Upserting the same row at the same key twice equals upserting once. -/
theorem updateOrCreate_idem {α : Type} (rows : List (String × α))
    (k : String) (row : α) :
    updateOrCreate (updateOrCreate rows k row) k row =
      updateOrCreate rows k row := by
  by_cases h : ((rows.find? (fun r => r.1 == k)).isSome) = true
  · rw [updateOrCreate_of_contains rows k row h]
    rw [updateOrCreate_of_contains _ k row (by
      rw [find?_isSome_map_keyfix rows k _
        (fun r => by by_cases hr : r.1 = k <;> simp [hr])]
      exact h)]
    rw [List.map_map]
    refine List.map_congr_left fun r _ => ?_
    by_cases hr : r.1 = k <;> simp [hr, Function.comp]
  · rw [updateOrCreate_of_not_contains rows k row (Bool.eq_false_iff.mpr h)]
    rw [updateOrCreate_of_contains _ k row (by
      rw [find?_isSome_append]
      simp [List.find?_cons])]
    rw [List.map_append]
    have hrows : rows.map (fun r => if r.1 == k then (r.1, row) else r) = rows := by
      have hall := List.find?_eq_none.mp (by
        cases hfind : rows.find? (fun r => r.1 == k) with
        | none => rfl
        | some v => rw [hfind] at h; simp at h)
      calc rows.map (fun r => if r.1 == k then (r.1, row) else r)
          = rows.map id := List.map_congr_left fun r hr => by
            have := hall r hr
            simp at this
            simp [this]
        _ = rows := List.map_id rows
    rw [hrows]
    simp

/-- Idempotent functions map lists idempotently. -/
theorem map_idem {α : Type} (f : α → α) (hf : ∀ a, f (f a) = f a)
    (l : List α) : (l.map f).map f = l.map f := by
  rw [List.map_map]
  exact List.map_congr_left fun a _ => hf a

/-- Closed form of the database after one successful finalize try block:
vertical saved onto the job row, the 1:1 payloads upserted by job id, the
case studies appended; when the case-study list is None the TypeError
stops the block before the gap and ops writes. -/
def finalizeDbResult (s : ResearchState) (db : Db) : Db where
  jobs :=
    match s.vertical with
    | some v =>
      if v ≠ "" then
        db.jobs.map (fun r =>
          if r.1 == s.job_id then (r.1, { r.2 with vertical := v }) else r)
      else db.jobs
    | none => db.jobs
  reports :=
    match s.research_report with
    | some r => updateOrCreate db.reports s.job_id r
    | none => db.reports
  case_studies :=
    db.case_studies ++ (s.competitor_case_studies.getD []).map (fun c => (s.job_id, c))
  gap_analyses :=
    match s.competitor_case_studies with
    | none => db.gap_analyses
    | some _ =>
      match s.gap_analysis with
      | some g => updateOrCreate db.gap_analyses s.job_id g
      | none => db.gap_analyses
  internal_ops_intel :=
    match s.competitor_case_studies with
    | none => db.internal_ops_intel
    | some _ =>
      match s.internal_ops with
      | some d => updateOrCreate db.internal_ops_intel s.job_id (opsRowOfState s d)
      | none => db.internal_ops_intel

/-- Folding the case-study inserts appends the keyed rows. -/
theorem foldl_insert_case_studies (cs : List CaseStudyDict) (j : String)
    (db : Db) :
    (cs.map (DbOp.insertCaseStudy j)).foldl applyDbOp db =
      { db with case_studies := db.case_studies ++ cs.map (fun c => (j, c)) } := by
  induction cs generalizing db with
  | nil => simp
  | cons c rest ih => simp [applyDbOp, ih]

/-- The persistence plan folds to the closed form. -/
theorem finalize_fold_eq (s : ResearchState) (db : Db) :
    (persistPlan true s).1.foldl applyDbOp db = finalizeDbResult s db := by
  obtain ⟨cn, sh, pr, jid, st, res, err, rr, vert, ccs, ga, io, gc⟩ := s
  unfold persistPlan finalizeDbResult
  dsimp only
  rw [if_neg (by simp)]
  rcases ccs with _ | cs <;>
    rcases vert with _ | v <;>
    rcases rr with _ | r <;>
    rcases ga with _ | g <;>
    rcases io with _ | d <;>
    (try by_cases hv : v = "") <;>
    simp_all [applyDbOp, foldl_insert_case_studies, List.foldl_append]

/-- When the job row exists and no infrastructure failure is injected,
finalize updates the database to the closed form. -/
theorem finalize_result_db_of_found (env : PipelineEnv) (d : Db)
    (s : ResearchState) (henv : env.persistFailStep = none)
    (hs : s.status ≠ "failed") (hj : s.job_id ≠ "")
    (hd : ((lookupRow d.jobs s.job_id).isSome) = true) :
    (finalize_result env d s).1 = finalizeDbResult s d := by
  unfold finalize_result
  rw [if_neg hs, if_neg hj]
  dsimp only
  rw [hd, henv]
  exact finalize_fold_eq s d

/-- Row lookup succeeds exactly when find succeeds. -/
theorem isSome_lookupRow_eq {α : Type} (rows : List (String × α))
    (k : String) :
    ((lookupRow rows k).isSome) = ((rows.find? (fun r => r.1 == k)).isSome) := by
  unfold lookupRow
  cases rows.find? (fun r => r.1 == k) <;> rfl

/-- Finalize preserves which job rows exist. -/
theorem lookup_jobs_finalizeDbResult (s : ResearchState) (db : Db)
    (k : String) :
    ((lookupRow (finalizeDbResult s db).jobs k).isSome) =
      ((lookupRow db.jobs k).isSome) := by
  rw [isSome_lookupRow_eq, isSome_lookupRow_eq]
  unfold finalizeDbResult
  dsimp only
  rcases s.vertical with _ | v
  · rfl
  · dsimp only
    split_ifs
    · exact find?_isSome_map_keyfix db.jobs k _
        (fun r => by by_cases hr : r.1 = s.job_id <;> simp [hr])
    · rfl

/-- C4 amended: with the job row present, repeated finalize with the
same job id and payloads is idempotent on the job row and the three 1:1
tables (report, gap analysis, ops intel are upserted by job id), while
the 1:many competitor case-study rows are appended again by the second
call. -/
theorem finalize_idempotent_per_payload (env : PipelineEnv) (db : Db)
    (s : ResearchState) (henv : env.persistFailStep = none)
    (hs : s.status ≠ "failed") (hj : s.job_id ≠ "")
    (hfound : ((lookupRow db.jobs s.job_id).isSome) = true) :
    ((finalize_result env (finalize_result env db s).1 s).1).jobs =
      ((finalize_result env db s).1).jobs ∧
    ((finalize_result env (finalize_result env db s).1 s).1).reports =
      ((finalize_result env db s).1).reports ∧
    ((finalize_result env (finalize_result env db s).1 s).1).gap_analyses =
      ((finalize_result env db s).1).gap_analyses ∧
    ((finalize_result env (finalize_result env db s).1 s).1).internal_ops_intel =
      ((finalize_result env db s).1).internal_ops_intel ∧
    ((finalize_result env (finalize_result env db s).1 s).1).case_studies =
      ((finalize_result env db s).1).case_studies ++
        (s.competitor_case_studies.getD []).map (fun c => (s.job_id, c)) := by
  have h1 : (finalize_result env db s).1 = finalizeDbResult s db :=
    finalize_result_db_of_found env db s henv hs hj hfound
  have hk : ((lookupRow (finalizeDbResult s db).jobs s.job_id).isSome) = true := by
    rw [lookup_jobs_finalizeDbResult]
    exact hfound
  have h2 : (finalize_result env (finalize_result env db s).1 s).1 =
      finalizeDbResult s (finalizeDbResult s db) := by
    rw [h1]
    exact finalize_result_db_of_found env _ s henv hs hj hk
  rw [h2, h1]
  refine ⟨?_, ?_, ?_, ?_, ?_⟩
  · show (finalizeDbResult s (finalizeDbResult s db)).jobs = _
    unfold finalizeDbResult
    dsimp only
    rcases s.vertical with _ | v
    · rfl
    · dsimp only
      split_ifs with hv
      · exact map_idem _ (fun r => by by_cases hr : r.1 = s.job_id <;> simp [hr]) _
      · rfl
  · show (finalizeDbResult s (finalizeDbResult s db)).reports = _
    unfold finalizeDbResult
    dsimp only
    rcases s.research_report with _ | r
    · rfl
    · exact updateOrCreate_idem _ _ _
  · show (finalizeDbResult s (finalizeDbResult s db)).gap_analyses = _
    unfold finalizeDbResult
    dsimp only
    rcases s.competitor_case_studies with _ | cs
    · rfl
    · dsimp only
      rcases s.gap_analysis with _ | g
      · rfl
      · exact updateOrCreate_idem _ _ _
  · show (finalizeDbResult s (finalizeDbResult s db)).internal_ops_intel = _
    unfold finalizeDbResult
    dsimp only
    rcases s.competitor_case_studies with _ | cs
    · rfl
    · dsimp only
      rcases s.internal_ops with _ | d
      · rfl
      · exact updateOrCreate_idem _ _ _
  · rfl

/-- Witness for C4 amended at the concrete finalize fixture. -/
theorem finalize_idempotent_per_payload_witness :
    ((finalize_result okEnv (finalize_result okEnv jobDb finalizeState).1
        finalizeState).1).reports =
      ((finalize_result okEnv jobDb finalizeState).1).reports ∧
    ((finalize_result okEnv (finalize_result okEnv jobDb finalizeState).1
        finalizeState).1).case_studies =
      ((finalize_result okEnv jobDb finalizeState).1).case_studies ++
        (finalizeState.competitor_case_studies.getD []).map
          (fun c => (finalizeState.job_id, c)) :=
  ⟨(finalize_idempotent_per_payload okEnv jobDb finalizeState rfl
      (by decide) (by decide) rfl).2.1,
   (finalize_idempotent_per_payload okEnv jobDb finalizeState rfl
      (by decide) (by decide) rfl).2.2.2.2⟩

/-! ### Context accumulator fixtures -/

/-- A research job whose pipeline run is still in flight. -/
def runningJob : ResearchJobRec :=
  { id := "rj-1", client_name := "Acme Corp", status := "running",
    report := some { pain_points := ["slow onboarding"] } }

/-- Iteration one, holding the running job. -/
def iterOne : IterationRec :=
  { id := "it-1", sequence := 1, created_at := "2024-01-01T00:00:00",
    research_job := some runningJob }

/-- Iteration two, the target we build context for. -/
def iterTwo : IterationRec :=
  { id := "it-2", sequence := 2, created_at := "2024-02-01T00:00:00" }

/-- An accumulate-mode project whose only prior run is not completed. -/
def projRunning : ProjectRec :=
  { context_mode := "accumulate", iterations := [iterOne, iterTwo] }

/-- C7 counterexample: the prior iteration carries a pipeline run whose
status is running, not completed, yet build_context returns a non-empty
bundle; the code only checks that a research job exists, never that its
run completed, refuting the claimed
no-completed-run-means-empty condition. -/
theorem build_context_ignores_run_status :
    runningJob.status = "running" ∧
    prevIteration projRunning iterTwo = some iterOne ∧
    build_context projRunning iterTwo ≠ [] ∧
    ("identified_pain_points", CtxVal.vStrList ["slow onboarding"]) ∈
      build_context projRunning iterTwo := by
  refine ⟨rfl, rfl, ?_, ?_⟩ <;> decide

/-- C7 amended: build_context returns the empty bundle exactly when the
context mode is fresh, or the target has no prior iteration, or the
prior iteration with the largest smaller sequence has no research job at
all (whatever its run status); in particular, under sequences assigned
from one upward, the first iteration always gets an empty bundle, and
fresh mode always does regardless of history. -/
theorem build_context_empty_characterization :
    (∀ p : ProjectRec, ∀ it : IterationRec,
      build_context p it = [] ↔
        p.context_mode = "fresh" ∨
        (prevIteration p it).bind (fun j => j.research_job) = none) ∧
    (∀ p : ProjectRec, ∀ it : IterationRec,
      (∀ j ∈ p.iterations, 1 ≤ j.sequence) → it.sequence = 1 →
      build_context p it = []) ∧
    (∀ p : ProjectRec, ∀ it : IterationRec,
      p.context_mode = "fresh" → build_context p it = []) := by
  have hmain : ∀ p : ProjectRec, ∀ it : IterationRec,
      build_context p it = [] ↔
        p.context_mode = "fresh" ∨
        (prevIteration p it).bind (fun j => j.research_job) = none := by
    intro p it
    unfold build_context
    by_cases hf : p.context_mode = "fresh"
    · simp [hf]
    · rw [if_neg hf]
      rcases hprev : prevIteration p it with _ | prev
      · simp [hf]
      · dsimp only
        rcases hjob : prev.research_job with _ | job
        · simp [hf, hjob]
        · dsimp only
          constructor
          · intro hempty
            exfalso
            have hmem : ("previous_iteration_summary",
                CtxVal.vIterSummary (summarize_iteration prev)) ∈
                ([] : CtxBundle) := by
              rw [← hempty]
              refine List.mem_filter.mpr ⟨by simp, ?_⟩
              unfold summarize_iteration
              rw [hjob]
              rfl
            simp at hmem
          · intro hor
            rcases hor with hfr | hnone
            · exact absurd hfr hf
            · simp [hjob] at hnone
  refine ⟨hmain, ?_, ?_⟩
  · intro p it hall hone
    apply (hmain p it).mpr
    right
    have hfil : p.iterations.filter (fun j => j.sequence < it.sequence) = [] := by
      refine List.filter_eq_nil_iff.mpr fun j hj => ?_
      have h1 := hall j hj
      simp [hone]
      omega
    unfold prevIteration
    rw [hfil]
    rfl
  · intro p it hf
    exact (hmain p it).mpr (Or.inl hf)

/-- Witness for C7 amended, on a single-iteration project. -/
theorem build_context_empty_characterization_witness :
    build_context { context_mode := "accumulate", iterations := [iterOne] }
      iterOne = [] :=
  build_context_empty_characterization.2.1
    { context_mode := "accumulate", iterations := [iterOne] } iterOne
    (by decide) rfl

/-! ### Deduplication lemmas -/

/-- Membership after first-occurrence dedup: kept iff present and not
already seen. -/
theorem mem_dedupFirstAux (seen l : List String) (x : String) :
    x ∈ dedupFirstAux seen l ↔ x ∈ l ∧ x ∉ seen := by
  induction l generalizing seen with
  | nil => simp [dedupFirstAux]
  | cons a t ih =>
    by_cases h : a ∈ seen
    · rw [show dedupFirstAux seen (a :: t) = dedupFirstAux seen t from by
        simp [dedupFirstAux, h]]
      rw [ih]
      simp only [List.mem_cons]
      constructor
      · rintro ⟨hx, hns⟩
        exact ⟨Or.inr hx, hns⟩
      · rintro ⟨hx | hx, hns⟩
        · exact absurd (hx ▸ h) hns
        · exact ⟨hx, hns⟩
    · rw [show dedupFirstAux seen (a :: t) = a :: dedupFirstAux (a :: seen) t from by
        simp [dedupFirstAux, h]]
      simp only [List.mem_cons, ih]
      constructor
      · rintro (rfl | ⟨hx, hns⟩)
        · exact ⟨Or.inl rfl, h⟩
        · exact ⟨Or.inr hx, fun hxs => hns (Or.inr hxs)⟩
      · rintro ⟨hx | hx, hns⟩
        · exact Or.inl hx
        · by_cases hxa : x = a
          · exact Or.inl hxa
          · exact Or.inr ⟨hx, by simp [hxa, hns]⟩

/-- First-occurrence dedup yields no duplicates and avoids the seen set. -/
theorem nodup_dedupFirstAux (seen l : List String) :
    (dedupFirstAux seen l).Nodup ∧ ∀ x ∈ dedupFirstAux seen l, x ∉ seen := by
  induction l generalizing seen with
  | nil => simp [dedupFirstAux]
  | cons a t ih =>
    by_cases h : a ∈ seen
    · rw [show dedupFirstAux seen (a :: t) = dedupFirstAux seen t from by
        simp [dedupFirstAux, h]]
      exact ih seen
    · rw [show dedupFirstAux seen (a :: t) = a :: dedupFirstAux (a :: seen) t from by
        simp [dedupFirstAux, h]]
      obtain ⟨hnd, hns⟩ := ih (a :: seen)
      refine ⟨List.nodup_cons.mpr ⟨fun hmem => ?_, hnd⟩, fun x hx => ?_⟩
      · exact (hns a hmem) (List.mem_cons_self a seen)
      · rcases List.mem_cons.mp hx with rfl | hx2
        · exact h
        · exact fun hxs => hns x hx2 (List.mem_cons_of_mem a hxs)

/-- First-occurrence dedup preserves the original order. -/
theorem sublist_dedupFirstAux (seen l : List String) :
    List.Sublist (dedupFirstAux seen l) l := by
  induction l generalizing seen with
  | nil => simp [dedupFirstAux]
  | cons a t ih =>
    by_cases h : a ∈ seen
    · rw [show dedupFirstAux seen (a :: t) = dedupFirstAux seen t from by
        simp [dedupFirstAux, h]]
      exact (ih seen).cons a
    · rw [show dedupFirstAux seen (a :: t) = a :: dedupFirstAux (a :: seen) t from by
        simp [dedupFirstAux, h]]
      exact (ih (a :: seen)).cons₂ a

/-- Title membership after use-case dedup. -/
theorem mem_title_dedupUseCasesAux (seen : List String) (l : List UseCaseCtx)
    (t : String) :
    t ∈ (dedupUseCasesAux seen l).map UseCaseCtx.title ↔
      t ∈ l.map UseCaseCtx.title ∧ t ∉ seen := by
  induction l generalizing seen with
  | nil => simp [dedupUseCasesAux]
  | cons uc rest ih =>
    by_cases h : uc.title ∈ seen
    · rw [show dedupUseCasesAux seen (uc :: rest) = dedupUseCasesAux seen rest from by
        simp [dedupUseCasesAux, h]]
      rw [ih]
      simp only [List.map_cons, List.mem_cons]
      constructor
      · rintro ⟨hx, hns⟩
        exact ⟨Or.inr hx, hns⟩
      · rintro ⟨hx | hx, hns⟩
        · exact absurd (hx ▸ h) hns
        · exact ⟨hx, hns⟩
    · rw [show dedupUseCasesAux seen (uc :: rest) =
          uc :: dedupUseCasesAux (uc.title :: seen) rest from by
        simp [dedupUseCasesAux, h]]
      simp only [List.map_cons, List.mem_cons, ih]
      constructor
      · rintro (rfl | ⟨hx, hns⟩)
        · exact ⟨Or.inl rfl, h⟩
        · exact ⟨Or.inr hx, fun hxs => hns (Or.inr hxs)⟩
      · rintro ⟨hx | hx, hns⟩
        · exact Or.inl hx
        · by_cases hxa : t = uc.title
          · exact Or.inl hxa
          · exact Or.inr ⟨hx, by simp [hxa, hns]⟩

/-- Use-case dedup keeps distinct titles and avoids the seen set. -/
theorem titles_nodup_dedupUseCasesAux (seen : List String) (l : List UseCaseCtx) :
    ((dedupUseCasesAux seen l).map UseCaseCtx.title).Nodup ∧
      ∀ uc ∈ dedupUseCasesAux seen l, uc.title ∉ seen := by
  induction l generalizing seen with
  | nil => simp [dedupUseCasesAux]
  | cons uc rest ih =>
    by_cases h : uc.title ∈ seen
    · rw [show dedupUseCasesAux seen (uc :: rest) = dedupUseCasesAux seen rest from by
        simp [dedupUseCasesAux, h]]
      exact ih seen
    · rw [show dedupUseCasesAux seen (uc :: rest) =
          uc :: dedupUseCasesAux (uc.title :: seen) rest from by
        simp [dedupUseCasesAux, h]]
      obtain ⟨hnd, hns⟩ := ih (uc.title :: seen)
      refine ⟨?_, fun x hx => ?_⟩
      · rw [List.map_cons]
        refine List.nodup_cons.mpr ⟨fun hmem => ?_, hnd⟩
        rcases List.mem_map.mp hmem with ⟨y, hy, hty⟩
        exact (hns y hy) (by rw [hty]; exact List.mem_cons_self _ _)
      · rcases List.mem_cons.mp hx with rfl | hx2
        · exact h
        · exact fun hxs => hns x hx2 (List.mem_cons_of_mem _ hxs)

/-- Use-case dedup preserves the original order. -/
theorem sublist_dedupUseCasesAux (seen : List String) (l : List UseCaseCtx) :
    List.Sublist (dedupUseCasesAux seen l) l := by
  induction l generalizing seen with
  | nil => simp [dedupUseCasesAux]
  | cons uc rest ih =>
    by_cases h : uc.title ∈ seen
    · rw [show dedupUseCasesAux seen (uc :: rest) = dedupUseCasesAux seen rest from by
        simp [dedupUseCasesAux, h]]
      exact (ih seen).cons uc
    · rw [show dedupUseCasesAux seen (uc :: rest) =
          uc :: dedupUseCasesAux (uc.title :: seen) rest from by
        simp [dedupUseCasesAux, h]]
      exact (ih (uc.title :: seen)).cons₂ uc

/-! ### Cumulative context fixtures -/

/-- Prior iteration one with pain points A and B. -/
def iterPA : IterationRec :=
  { id := "a", sequence := 1,
    research_job := some { id := "ja", status := "completed",
                           report := some { pain_points := ["A", "B"] } } }

/-- Prior iteration two with pain points B and C. -/
def iterPB : IterationRec :=
  { id := "b", sequence := 2,
    research_job := some { id := "jb", status := "completed",
                           report := some { pain_points := ["B", "C"] } } }

/-- The target iteration, sequence three. -/
def iterTarget : IterationRec := { id := "c", sequence := 3 }

/-- An accumulate project whose iterations are stored out of sequence
order, so the example also exercises the ascending walk. -/
def projAB : ProjectRec :=
  { context_mode := "accumulate", iterations := [iterPB, iterTarget, iterPA] }

/-- C9: the cumulative walk deduplicates pain points and opportunities by
exact string equality preserving first-seen order (no duplicates, same
membership as the ascending-order concatenation, order a sublist of it),
deduplicates use cases by title with the first occurrence winning, and on
the spec example with prior pain points A,B then B,C yields exactly
A,B,C. -/
theorem cumulative_context_dedup :
    (∀ p : ProjectRec, ∀ it : IterationRec,
      (dedupFirst (collectedPainPoints p it)).Nodup ∧
      (∀ x, x ∈ dedupFirst (collectedPainPoints p it) ↔
        x ∈ collectedPainPoints p it) ∧
      List.Sublist (dedupFirst (collectedPainPoints p it)) (collectedPainPoints p it)) ∧
    (∀ p : ProjectRec, ∀ it : IterationRec,
      (dedupFirst (collectedOpportunities p it)).Nodup ∧
      (∀ x, x ∈ dedupFirst (collectedOpportunities p it) ↔
        x ∈ collectedOpportunities p it) ∧
      List.Sublist (dedupFirst (collectedOpportunities p it)) (collectedOpportunities p it)) ∧
    (∀ p : ProjectRec, ∀ it : IterationRec,
      ((dedupUseCasesAux [] (collectedUseCases p it)).map UseCaseCtx.title).Nodup ∧
      (∀ t, t ∈ (dedupUseCasesAux [] (collectedUseCases p it)).map UseCaseCtx.title ↔
        t ∈ (collectedUseCases p it).map UseCaseCtx.title) ∧
      List.Sublist (dedupUseCasesAux [] (collectedUseCases p it)) (collectedUseCases p it)) ∧
    get_cumulative_context projAB iterTarget =
      [("iteration_count", CtxVal.vCount 2),
       ("cumulative_pain_points", CtxVal.vStrList ["A", "B", "C"])] := by
  refine ⟨?_, ?_, ?_, by decide⟩
  · intro p it
    exact ⟨(nodup_dedupFirstAux [] _).1,
           fun x => by simpa using mem_dedupFirstAux [] (collectedPainPoints p it) x,
           sublist_dedupFirstAux [] _⟩
  · intro p it
    exact ⟨(nodup_dedupFirstAux [] _).1,
           fun x => by simpa using mem_dedupFirstAux [] (collectedOpportunities p it) x,
           sublist_dedupFirstAux [] _⟩
  · intro p it
    exact ⟨(titles_nodup_dedupUseCasesAux [] _).1,
           fun t => by simpa using mem_title_dedupUseCasesAux [] (collectedUseCases p it) t,
           sublist_dedupUseCasesAux [] _⟩

/-- C10: for each of pain points, opportunities and talking points the
comparator diff is the set-difference triple over exact string
membership of the two reports, and the added set of compare X Y equals
the removed set of compare Y X. -/
theorem comparator_diff_is_set_difference (X Y : IterationRec) :
    (∀ s, s ∈ (compare X Y).differences.pain_points.added ↔
      s ∈ get_pain_points Y ∧ s ∉ get_pain_points X) ∧
    (∀ s, s ∈ (compare X Y).differences.pain_points.removed ↔
      s ∈ get_pain_points X ∧ s ∉ get_pain_points Y) ∧
    (∀ s, s ∈ (compare X Y).differences.pain_points.unchanged ↔
      s ∈ get_pain_points X ∧ s ∈ get_pain_points Y) ∧
    (∀ s, s ∈ (compare X Y).differences.opportunities.added ↔
      s ∈ get_opportunities Y ∧ s ∉ get_opportunities X) ∧
    (∀ s, s ∈ (compare X Y).differences.opportunities.removed ↔
      s ∈ get_opportunities X ∧ s ∉ get_opportunities Y) ∧
    (∀ s, s ∈ (compare X Y).differences.opportunities.unchanged ↔
      s ∈ get_opportunities X ∧ s ∈ get_opportunities Y) ∧
    (∀ s, s ∈ (compare X Y).differences.talking_points.added ↔
      s ∈ get_talking_points Y ∧ s ∉ get_talking_points X) ∧
    (∀ s, s ∈ (compare X Y).differences.talking_points.removed ↔
      s ∈ get_talking_points X ∧ s ∉ get_talking_points Y) ∧
    (∀ s, s ∈ (compare X Y).differences.talking_points.unchanged ↔
      s ∈ get_talking_points X ∧ s ∈ get_talking_points Y) ∧
    (compare X Y).differences.pain_points.added =
      (compare Y X).differences.pain_points.removed ∧
    (compare X Y).differences.opportunities.added =
      (compare Y X).differences.opportunities.removed ∧
    (compare X Y).differences.talking_points.added =
      (compare Y X).differences.talking_points.removed := by
  refine ⟨?_, ?_, ?_, ?_, ?_, ?_, ?_, ?_, ?_, rfl, rfl, rfl⟩ <;>
    intro s <;>
    simp [compare, compute_differences, diff_lists, List.mem_toFinset]

end AgentResearcher
